import Mathlib

/-!
Shallow embedding of `ete_dev/tools/ete_ncbiquery.py` (the `main` entry point
of the `ncbiquery` CLI tool) and proofs about the claims of its specification.

The script is an argument-parsing and orchestration layer: the taxonomy store
(`NCBITaxa`) and the tree type (`PhyloTree`) are external collaborators that
are not part of the repository excerpt, so they are modelled as an abstract
`Store` of functions; everything the script itself does (validation, set
algebra over taxids and names, formatting, which files are written with which
formats and features) is translated faithfully from the source.

Python conventions modelled explicitly:
* Python values that may be an `int` or a `str` (taxids, feature values) are a
  sum type; Python `==` never identifies an int with a string, which the
  derived `DecidableEq` reproduces.
* Python truthiness of optional CLI arguments: `None` is falsy, an empty
  string / empty list / `0.0` is falsy.
* Python `set(...)` is modelled as a duplicate-free list (`pySet`, keeping
  first occurrences); iteration order of sets and dicts is a modelling choice
  (Python leaves it unspecified) and no theorem depends on it.
* Writes to stdout / stderr / files and the `t.write(...)` tree exports are
  modelled as an effect trace; `logging` output is not modelled.
-/

namespace EteNcbiquery

/-- A Python value that is either an `int` or a `str`.  Taxids flow through
the script in both representations. -/
inductive Taxid : Type where
  | int (n : Int) : Taxid
  | str (v : String) : Taxid
deriving DecidableEq, Repr

/-- Python `str(...)` of a taxid value. -/
def Taxid.toPyStr : Taxid → String
  | .int n => toString n
  | .str v => v

/-- The numeric value of a digit list, `none` on a non-digit. -/
def digitsVal (l : List Char) : Option Nat :=
  l.foldl
    (fun acc c =>
      match acc with
      | none => none
      | some n => if c.isDigit then some (n * 10 + (c.toNat - 48)) else none)
    (some 0)

/-- Python `int(s)` on a numeric string; the script only applies it to
numeric strings (a non-numeric string would raise, modelled by default 0). -/
def pyInt (s : String) : Int :=
  match s.data with
  | '-' :: rest =>
    if rest.isEmpty then 0 else
      match digitsVal rest with
      | some n => -(n : Int)
      | none => 0
  | l =>
    if l.isEmpty then 0 else
      match digitsVal l with
      | some n => (n : Int)
      | none => 0

/-- Python `int(...)` of an int-or-string value. -/
def Taxid.toPyInt : Taxid → Int
  | .int n => n
  | .str v => pyInt v

/-- A tree-node feature value (`add_features` stores arbitrary values; the
script stores ints and strings). -/
inductive FVal : Type where
  | int (n : Int) : FVal
  | str (v : String) : FVal
deriving DecidableEq, Repr

/-- Python `str(...)` / `"%s"` formatting of a feature value. -/
def FVal.toPyStr : FVal → String
  | .int n => toString n
  | .str v => v

/-- Python `int(...)` of a feature value. -/
def FVal.toPyInt : FVal → Int
  | .int n => n
  | .str v => pyInt v

/-- A feature value as a taxid value (identity on the int/str structure). -/
def FVal.toTaxid : FVal → Taxid
  | .int n => .int n
  | .str v => .str v

/-- The external `PhyloTree`/`TreeNode` type: a node name, a feature
dictionary and a list of children. -/
inductive PTree : Type where
  | mk (nm : String) (feats : List (String × FVal)) (children : List PTree) : PTree
deriving Repr

/-- The node's `name` attribute. -/
def PTree.nm : PTree → String
  | .mk n _ _ => n

/-- The node's feature dictionary. -/
def PTree.feats : PTree → List (String × FVal)
  | .mk _ f _ => f

/-- The node's children. -/
def PTree.children : PTree → List PTree
  | .mk _ _ c => c

/-- Feature lookup (`getattr(n, k)` for a feature key). -/
def getFeat (t : PTree) (k : String) : Option FVal :=
  (t.feats.find? (fun p => p.1 = k)).map (fun p => p.2)

/-- Feature lookup rendered as a string (absent features render as `""`;
the script only reads features its collaborators guarantee to exist). -/
def featStr (t : PTree) (k : String) : String :=
  ((getFeat t k).map FVal.toPyStr).getD ""

/-- `n.add_feature(k, v)` / `n.add_features(k=v)`: upsert into the feature
dictionary. -/
def setFeat (fs : List (String × FVal)) (k : String) (v : FVal) : List (String × FVal) :=
  if fs.any (fun p => p.1 = k) then
    fs.map (fun p => if p.1 = k then (k, v) else p)
  else
    fs ++ [(k, v)]

/-- `getattr(n, attr)` as used for `--reftree_attr`: the `name` attribute or a
feature. -/
def getAttr (t : PTree) (attr : String) : FVal :=
  if attr = "name" then .str t.nm else (getFeat t attr).getD (.str "")

mutual

/-- All nodes of the tree, the node before its children (`t.traverse()`;
the external library's traversal order is unspecified glue, modelled as
preorder — no theorem depends on the order). -/
def PTree.nodes : PTree → List PTree
  | .mk n f cs => .mk n f cs :: PTree.nodesList cs

/-- All nodes of a forest, in order. -/
def PTree.nodesList : List PTree → List PTree
  | [] => []
  | t :: ts => PTree.nodes t ++ PTree.nodesList ts

end

/-- The strict descendants of a node (`n.get_descendants()`). -/
def PTree.descendants (t : PTree) : List PTree :=
  PTree.nodesList t.children

mutual

/-- The leaves of the tree (`t.iter_leaves()`). -/
def PTree.leaves : PTree → List PTree
  | .mk n f cs =>
    if cs.isEmpty then [.mk n f cs] else PTree.leavesList cs

/-- The leaves of a forest, in order. -/
def PTree.leavesList : List PTree → List PTree
  | [] => []
  | t :: ts => PTree.leaves t ++ PTree.leavesList ts

end

/-- An induction principle for `PTree` that hands the inductive hypothesis to
every child. -/
def PTree.recNodes {motive : PTree → Sort _}
    (h : ∀ n f cs, (∀ c ∈ cs, motive c) → motive (.mk n f cs)) : ∀ t, motive t
  | .mk n f cs =>
    h n f cs (fun c hc =>
      have : sizeOf c < sizeOf (PTree.mk n f cs) := by
        have := List.sizeOf_lt_of_mem hc
        simp only [PTree.mk.sizeOf_spec]
        omega
      PTree.recNodes h c)
termination_by t => sizeOf t

/-- Python `set(...)` over a list: duplicates removed (iteration order of a
Python set is unspecified; the model keeps `List.dedup` order and no theorem
depends on it). -/
def pySet {α : Type} [DecidableEq α] (l : List α) : List α :=
  l.dedup

/-- Python whitespace, as `string.strip` treats it. -/
def isPyWhitespace (c : Char) : Bool :=
  c = ' ' || c = '\t' || c = '\n' || c = '\r' || c = '\x0b' || c = '\x0c'

/-- Python `s.strip()` (from `string.strip`): whitespace removed at both
ends. -/
def pyStrip (s : String) : String :=
  String.mk (((s.data.dropWhile isPyWhitespace).reverse.dropWhile isPyWhitespace).reverse)

/-- Python `s.split(sep)` for a one-character separator: splits at every
occurrence, keeping empty pieces. -/
def splitOnChar (sep : Char) : List Char → List (List Char)
  | [] => [[]]
  | c :: cs =>
    match splitOnChar sep cs with
    | [] => [[c]]
    | h :: t => if c = sep then [] :: h :: t else (c :: h) :: t

/-- Python `s.split(sep)` on strings (one-character separator). -/
def pySplit (sep : Char) (s : String) : List String :=
  (splitOnChar sep s.data).map String.mk

/-- Python `s.capitalize()`: first character upper-cased, the rest
lower-cased. -/
def pyCapitalize (s : String) : String :=
  match s.data with
  | [] => ""
  | c :: cs => String.mk (c.toUpper :: cs.map Char.toLower)

/-- A two-decimal rendering of a rational, modelling `"%0.2f"` (rounding to
the nearest hundredth; no claim depends on the tie-breaking rule). -/
def fmt2 (q : Rat) : String :=
  let n : Int := (q * 100 + 1 / 2).floor
  toString (n / 100) ++ "." ++
    (if n.natAbs % 100 < 10 then "0" else "") ++ toString (n.natAbs % 100)

/-- The external collaborators of the script: the `NCBITaxa` taxonomy store
and the `PhyloTree` constructor/serializer.  The script treats every one of
these as an opaque call, so they are abstract function fields; theorems
quantify over them and witnesses instantiate them concretely.

Dict-valued results are modelled as association lists (first binding wins on
lookup), set-valued results as lists. -/
structure Store : Type where
  /-- `ncbi.get_name_translator(names)`: name → taxid dict. -/
  name2id : List String → List (String × Int)
  /-- `ncbi.get_fuzzy_name_translation(name, sim)`: `(tax, realname, sim)`,
  with `tax = none` when nothing matched. -/
  fuzzy_search : String → Rat → Option Int × String × Rat
  /-- `ncbi._translate_merged(taxids)`: the taxid set with merged ids
  replaced, plus the old-taxid → new-taxid conversion dict. -/
  translate_merged : List Taxid → List Taxid × List (Int × Int)
  /-- `ncbi.get_taxid_translator(taxids)`: taxid → scientific-name dict
  (int keys, as the real store returns). -/
  taxid_translator : List Taxid → List (Int × String)
  /-- `ncbi.get_sp_lineage(taxid)`: the numeric lineage track. -/
  sp_lineage : Taxid → List Int
  /-- `ncbi.translate_to_names(lineage)`. -/
  translate_to_names : List Int → List String
  /-- `ncbi._translate_to_names(lineage)` (the underscored variant used in
  the reftree block). -/
  translate_to_names' : List Int → List String
  /-- `ncbi.get_topology(taxids, full_lineage, rank_limit)`. -/
  get_topology : List Taxid → Bool → Option String → PTree
  /-- `PhyloTree(filename)`: parse the reference tree. -/
  parse_phylo : String → PTree
  /-- `tree.write(features=...)` without an out-file: the serialized Newick
  string. -/
  write_str : PTree → List String → String

/-- The file system visible to the script: path → contents. -/
def FS : Type := String → Option String

/-- `open(p).read()`; hypotheses of theorems always supply the file (a
missing file would raise `IOError` in Python, which no claim exercises). -/
def readFileD (fs : FS) (p : String) : String :=
  (fs p).getD ""

/-- The parsed command-line arguments, one field per `add_argument` call,
`none` when the option was not supplied. -/
structure Args : Type where
  dbfile : Option String := none
  /-- `-i` / `--taxid` (ints, `nargs="+"`). -/
  taxid : Option (List Int) := none
  /-- `-if` / `--taxid_file`. -/
  taxid_file : Option String := none
  /-- `-t` / `--reftree`. -/
  reftree : Option String := none
  /-- `--reftree_attr`, default `"name"`. -/
  reftree_attr : String := "name"
  /-- `-n` / `--name` (strings, `nargs="+"`). -/
  names : Option (List String) := none
  /-- `-nf` / `--names_file`. -/
  names_file : Option String := none
  /-- `--fuzzy` (a float threshold, modelled as a rational). -/
  fuzzy : Option Rat := none
  /-- `-x` / `--taxonomy`. -/
  taxonomy : Option String := none
  /-- `-l` / `--list`. -/
  info_list : Option String := none
  /-- `-a` / `--annotated`. -/
  annotated_tree : Option String := none
  /-- `--collapse_subspecies` (store_true). -/
  collapse_subspecies : Bool := false
  /-- `--rank_limit`. -/
  rank_limit : Option String := none
  /-- `--full_lineage` (store_true). -/
  full_lineage : Bool := false

/-- Python truthiness of an optional string argument: `None` and `""` are
falsy. -/
def optStrTruthy : Option String → Bool
  | none => false
  | some s => s ≠ ""

/-- Python truthiness of an optional list argument: `None` and `[]` are
falsy. -/
def optListTruthy {α : Type} : Option (List α) → Bool
  | none => false
  | some l => !l.isEmpty

/-- Python truthiness of the optional `--fuzzy` float: `None` and `0.0` are
falsy. -/
def optRatTruthy : Option Rat → Bool
  | none => false
  | some q => q ≠ 0

/-- `taxid_source = args.taxid or args.taxid_file or args.reftree`. -/
def taxidSource (a : Args) : Bool :=
  optListTruthy a.taxid || optStrTruthy a.taxid_file || optStrTruthy a.reftree

/-- `name_source = args.names or args.names_file`. -/
def nameSource (a : Args) : Bool :=
  optListTruthy a.names || optStrTruthy a.names_file

/-- Truthiness of `args.taxonomy or args.info_list or args.annotated_tree`
(the output-option test at line 123). -/
def outputTruthy (a : Args) : Bool :=
  optStrTruthy a.taxonomy || optStrTruthy a.info_list || optStrTruthy a.annotated_tree

/-- The argument-validation ladder of `main` (lines 116–124): the first
`parser.error` message hit, or `none` when processing proceeds. -/
def validateArgs (a : Args) : Option String :=
  if !taxidSource a && !nameSource a then
    some "At least one input source is required"
  else if taxidSource a && nameSource a then
    some "taxid and name options are mutually exclusive"
  else if !outputTruthy a then
    some "At least one output option is required"
  else
    none

/-- One observable effect of a run: a stdout line, a stderr line, a text
file written line-by-line, or a `t.write(..., outfile=...)` tree export. -/
inductive Effect : Type where
  | out (line : String) : Effect
  | err (line : String) : Effect
  | fileWrite (path : String) (lines : List String) : Effect
  | treeWrite (path : String) (fmt : Nat) (features : List String) (tree : PTree) : Effect
deriving Repr

/-- The set `all_names` after lines 129–138: names from `--names_file`
(one per line, stripped), then names from `-n` (space-joined then
comma-split, stripped), de-duplicated, the empty string discarded. -/
def allNamesOf (fs : FS) (a : Args) : List String :=
  let fromFile :=
    if optStrTruthy a.names_file then
      (pySplit (Char.ofNat 10) (readFileD fs (a.names_file.getD ""))).map pyStrip
    else []
  let fromCli :=
    if optListTruthy a.names then
      (pySplit (Char.ofNat 44) (String.intercalate " " (a.names.getD []))).map pyStrip
    else []
  (pySet (fromFile ++ fromCli)).filter (fun n => n ≠ "")

/-- The fuzzy-search loop over the names exact translation missed (lines
150–156): the entries added to `name2id` / `name2realname` / `name2score`.
The `if tax:` guard keeps only truthy (non-`None`, non-zero) taxids. -/
def fuzzyHits (st : Store) (thr : Rat) (notFound : List String) :
    List (String × Int × String × Rat) :=
  notFound.filterMap (fun n =>
    match st.fuzzy_search n thr with
    | (some tax, rn, sim) => if tax ≠ 0 then some (n, tax, rn, sim) else none
    | (none, _, _) => none)

/-- The name-translation table printed to stdout (lines 158–162), one line
per name: `score \t name \t realname.capitalize() \t taxid`. -/
def nameTableLines (st : Store) (fuzzy : Option Rat) (ns : List String) : List String :=
  let name2id := st.name2id ns
  let notFound := ns.filter (fun n => (name2id.find? (fun p => p.1 = n)).isNone)
  let hits :=
    if optRatTruthy fuzzy && !notFound.isEmpty then
      fuzzyHits st (fuzzy.getD 0) notFound
    else []
  ns.map (fun n =>
    let exact := (name2id.find? (fun p => p.1 = n)).map (fun p => p.2)
    let hit := hits.find? (fun h => h.1 = n)
    let taxidStr : String :=
      match exact with
      | some t => toString t
      | none =>
        match hit with
        | some h => toString h.2.1
        | none => "???"
    let realname :=
      match hit with
      | some h => h.2.2.1
      | none => n
    let score :=
      match hit with
      | some h => "Fuzzy:" ++ fmt2 h.2.2.2
      | none => "Exact:1.0"
    String.intercalate "\t" [score, n, pyCapitalize realname, taxidStr])

/-- The stdout effects of the name block (`if all_names:` at line 143). -/
def nameBlockEffects (st : Store) (fs : FS) (a : Args) : List Effect :=
  let ns := allNamesOf fs a
  if ns.isEmpty then [] else (nameTableLines st a.fuzzy ns).map Effect.out

/-- Taxids read from `--taxid_file` (line 164–165): one per line, stripped,
kept as strings. -/
def fileTaxids (fs : FS) (a : Args) : List Taxid :=
  if optStrTruthy a.taxid_file then
    (pySplit (Char.ofNat 10) (readFileD fs (a.taxid_file.getD ""))).map (fun l => Taxid.str (pyStrip l))
  else []

/-- Taxids from `-i` (lines 166–167): the parsed ints. -/
def cliTaxids (a : Args) : List Taxid :=
  if optListTruthy a.taxid then (a.taxid.getD []).map Taxid.int else []

/-- The parsed reference tree, when `-t` was supplied (lines 169–171). -/
def reftreeOf (st : Store) (a : Args) : Option PTree :=
  if optStrTruthy a.reftree then some (st.parse_phylo (a.reftree.getD "")) else none

/-- Taxids read from the reference-tree leaves (line 172):
`list(set([getattr(n, attr) for n in reftree.iter_leaves()]))`. -/
def reftreeTaxids (st : Store) (a : Args) : List Taxid :=
  match reftreeOf st a with
  | some rt => pySet ((PTree.leaves rt).map (fun n => (getAttr n a.reftree_attr).toTaxid))
  | none => []

/-- The `all_taxids` list after lines 164–172, in extension order. -/
def collectTaxids (st : Store) (fs : FS) (a : Args) : List Taxid :=
  fileTaxids fs a ++ cliTaxids a ++ reftreeTaxids st a

/-- One line of the `.info.txt` file (line 187): the merge-conversion image
of the translated taxid (or the taxid itself), the scientific name, the
comma-joined named lineage and the comma-joined numeric lineage,
tab-separated. -/
def infoLine (st : Store) (conversion : List (Int × Int)) (taxid : Int) (nm : String) :
    String :=
  let lineage := st.sp_lineage (Taxid.int taxid)
  let named := String.intercalate "," (st.translate_to_names lineage)
  let lin := String.intercalate "," (lineage.map toString)
  String.intercalate "\t"
    [toString (((conversion.find? (fun p => p.1 = taxid)).map (fun p => p.2)).getD taxid),
     nm, named, lin]

/-- The taxid set as cleaned at lines 175–176 and 194–195:
`set(all_taxids)` with `""` discarded. -/
def cleanTaxids (all_taxids : List Taxid) : List Taxid :=
  (pySet all_taxids).filter (fun t => t ≠ Taxid.str "")

/-- The merge-converted taxid set of the `--list` block (lines 177 and 180):
the first component of `_translate_merged`, `""` discarded again. -/
def infoConv (st : Store) (all_taxids : List Taxid) : List Taxid :=
  (pySet (st.translate_merged (cleanTaxids all_taxids)).1).filter (fun t => t ≠ Taxid.str "")

/-- The taxid translator queried on the merge-converted set (line 181). -/
def infoTranslator (st : Store) (all_taxids : List Taxid) : List (Int × String) :=
  st.taxid_translator (infoConv st all_taxids)

/-- The taxids reported `NOT FOUND` (line 190): the string renderings of the
merge-converted set minus the string renderings of the translator's keys. -/
def infoNotFound (st : Store) (all_taxids : List Taxid) : List String :=
  (pySet ((infoConv st all_taxids).map Taxid.toPyStr)).filter
    (fun v => v ∉ (infoTranslator st all_taxids).map (fun p => toString p.1))

/-- The `--list` block (lines 174–191): effects produced, plus the value the
outer `all_taxids` variable is reassigned to (the merge-converted set). -/
def infoBlock (st : Store) (listArg : String) (all_taxids : List Taxid) :
    List Effect × List Taxid :=
  (Effect.fileWrite (listArg ++ ".info.txt")
      ((infoTranslator st all_taxids).map
        (fun p => infoLine st (st.translate_merged (cleanTaxids all_taxids)).2 p.1 p.2)) ::
      (infoNotFound st all_taxids).map (fun v => Effect.err (v ++ " NOT FOUND")),
    infoConv st all_taxids)

/-- The feature list embedded in the `.full_annotation.nw` export
(lines 229–230). -/
def fullAnnotationFeatures : List String :=
  ["taxid", "name", "rank", "bgcolor", "sci_name", "collapse_subspecies", "named_lineage"]

mutual

/-- The annotation loop over the retrieved topology (lines 201–206): each
node gains `taxid` (its original name), `sci_name`, `named_lineage`, and is
renamed to `sciName{taxid}` (the scientific name falling back to the raw
name). -/
def annotateTree (st : Store) (id2name : List (Int × String)) : PTree → PTree
  | .mk nm fs cs =>
    let looked := (id2name.find? (fun p => p.1 = pyInt nm)).map (fun p => p.2)
    let fs1 := setFeat fs "taxid" (.str nm)
    let fs2 := setFeat fs1 "sci_name" (.str (looked.getD "?"))
    let newName := (looked.getD nm) ++ "\x7b" ++ nm ++ "\x7d"
    let lineage := st.sp_lineage (Taxid.str nm)
    let fs3 := setFeat fs2 "named_lineage"
      (.str (String.intercalate "|" (st.translate_to_names lineage)))
    .mk newName fs3 (annotateTreeList st id2name cs)

/-- `annotateTree` mapped over a forest. -/
def annotateTreeList (st : Store) (id2name : List (Int × String)) : List PTree → List PTree
  | [] => []
  | t :: ts => annotateTree st id2name t :: annotateTreeList st id2name ts

end

/-- The connector node of the collapse step (lines 215–218): a fresh node
copying every feature of the species node (its name included), the name
then suffixed with `{species}`. -/
def connectorOf (sp : PTree) : PTree :=
  .mk (sp.nm ++ "\x7bspecies\x7d") sp.feats []

/-- A collapsed former descendant (lines 219–222): detached, renamed with
its rank in braces, re-attached childless. -/
def leafify (d : PTree) : PTree :=
  .mk (d.nm ++ "\x7b" ++ featStr d "rank" ++ "\x7d") d.feats []

mutual

/-- The `--collapse_subspecies` rewrite (lines 208–224).  A node qualifies
when its `rank` feature is `"species"`, `int(n.taxid)` is a member of the
taxid set under Python equality, and it has descendants; its children
become every former descendant leafified plus the connector, and it gains
the feature `collapse_subspecies="1"`.  Non-qualifying nodes recurse into
their children, which matches the source's sequential mutation over the
pre-collected `species_nodes` list: species nodes inside a collapsed region
have no descendants left by the time they are visited. -/
def collapseTree (sset : List Taxid) : PTree → PTree
  | .mk nm fs cs =>
    let self := PTree.mk nm fs cs
    if featStr self "rank" == "species" &&
        sset.contains (Taxid.int (((getFeat self "taxid").getD (.str "")).toPyInt)) &&
        !cs.isEmpty then
      .mk nm (setFeat fs "collapse_subspecies" (.str "1"))
        ((self.descendants).map leafify ++ [connectorOf self])
    else
      .mk nm fs (collapseTreeList sset cs)

/-- `collapseTree` mapped over a forest. -/
def collapseTreeList (sset : List Taxid) : List PTree → List PTree
  | [] => []
  | t :: ts => collapseTree sset t :: collapseTreeList sset ts

end

mutual

/-- The leaf-renaming loop before the taxid exports (lines 232–233):
`i.name = i.taxid` for every leaf. -/
def renameLeavesToTaxid : PTree → PTree
  | .mk nm fs cs =>
    if cs.isEmpty then .mk (featStr (.mk nm fs cs) "taxid") fs cs
    else .mk nm fs (renameLeavesList cs)

/-- `renameLeavesToTaxid` mapped over a forest. -/
def renameLeavesList : List PTree → List PTree
  | [] => []
  | t :: ts => renameLeavesToTaxid t :: renameLeavesList ts

end

/-- The tree the `--taxonomy` block exports (lines 198–224): the topology
retrieved for the cleaned taxid set, annotated node by node, and collapsed
when `--collapse_subspecies` was given. -/
def taxTree (st : Store) (a : Args) (all_taxids : List Taxid) : PTree :=
  let s := cleanTaxids all_taxids
  let t0 := st.get_topology s a.full_lineage a.rank_limit
  let t1 := annotateTree st
    (st.taxid_translator ((PTree.nodes t0).map (fun n => Taxid.str n.nm))) t0
  if a.collapse_subspecies then collapseTree s t1 else t1

/-- The `--taxonomy` block (lines 193–235): effects produced (the five tree
exports, in source order), plus the value the outer `all_taxids` variable is
reassigned to. -/
def taxonomyBlock (st : Store) (a : Args) (all_taxids : List Taxid) :
    List Effect × List Taxid :=
  ([Effect.treeWrite (a.taxonomy.getD "" ++ ".names.nw") 9 [] (taxTree st a all_taxids),
    Effect.treeWrite (a.taxonomy.getD "" ++ ".allnames.nw") 8 [] (taxTree st a all_taxids),
    Effect.treeWrite (a.taxonomy.getD "" ++ ".full_annotation.nw") 9 fullAnnotationFeatures
      (taxTree st a all_taxids),
    Effect.treeWrite (a.taxonomy.getD "" ++ ".taxids.nw") 9 []
      (renameLeavesToTaxid (taxTree st a all_taxids)),
    Effect.treeWrite (a.taxonomy.getD "" ++ ".alltaxids.nw") 8 []
      (renameLeavesToTaxid (taxTree st a all_taxids))],
   cleanTaxids all_taxids)

/-- The per-leaf annotation of the reference tree (lines 240–246): a `taxid`
feature added when absent (the int of the `--reftree_attr` attribute), then
`sci_name` (the translator's name or the leaf name) and `ncbi_track` (the
pipe-joined named lineage). -/
def annotateRefLeaf (st : Store) (attr : String) (translator : List (Int × String)) :
    PTree → PTree
  | .mk nm fs cs =>
    let fs1 :=
      if (fs.find? (fun p => p.1 = "taxid")).isSome then fs
      else setFeat fs "taxid" (.int ((getAttr (.mk nm fs cs) attr).toPyInt))
    let tx := ((fs1.find? (fun p => p.1 = "taxid")).map (fun p => p.2)).getD (.str "")
    let sci := ((translator.find? (fun p => p.1 = tx.toPyInt)).map (fun p => p.2)).getD nm
    let fs2 := setFeat fs1 "sci_name" (.str sci)
    let lineage := st.sp_lineage tx.toTaxid
    let fs3 := setFeat fs2 "ncbi_track"
      (.str (String.intercalate "|" (st.translate_to_names' lineage)))
    .mk nm fs3 cs

mutual

/-- The reference-tree annotation applied to every leaf
(`reftree.iter_leaves()` at line 240). -/
def annotateRefTree (st : Store) (attr : String) (translator : List (Int × String)) :
    PTree → PTree
  | .mk nm fs cs =>
    if cs.isEmpty then annotateRefLeaf st attr translator (.mk nm fs cs)
    else .mk nm fs (annotateRefTreeList st attr translator cs)

/-- `annotateRefTree` mapped over a forest. -/
def annotateRefTreeList (st : Store) (attr : String) (translator : List (Int × String)) :
    List PTree → List PTree
  | [] => []
  | t :: ts => annotateRefTree st attr translator t :: annotateRefTreeList st attr translator ts

end

/-- The reference-tree block (lines 238–248): the annotated tree is printed
to stdout with `print reftree.write(features=["taxid", "sci_name",
"ncbi_track"])`; no file named by `-a` (`--annotated`) is ever opened. -/
def reftreeBlockEffects (st : Store) (a : Args) (rt : PTree) (all_taxids : List Taxid) :
    List Effect :=
  let translator := st.taxid_translator all_taxids
  let annotated := annotateRefTree st a.reftree_attr translator rt
  [Effect.out (st.write_str annotated ["taxid", "sci_name", "ncbi_track"])]

/-- The `--list` block guarded by `if all_taxids and args.info_list:`
(line 174): effects and the resulting value of `all_taxids`. -/
def infoStepOf (st : Store) (fs : FS) (a : Args) : List Effect × List Taxid :=
  let all1 := collectTaxids st fs a
  if !all1.isEmpty && optStrTruthy a.info_list then
    infoBlock st (a.info_list.getD "") all1
  else ([], all1)

/-- The `--taxonomy` block guarded by `if all_taxids and args.taxonomy:`
(line 193): effects and the resulting value of `all_taxids`. -/
def taxStepOf (st : Store) (fs : FS) (a : Args) : List Effect × List Taxid :=
  let all2 := (infoStepOf st fs a).2
  if !all2.isEmpty && optStrTruthy a.taxonomy then
    taxonomyBlock st a all2
  else ([], all2)

/-- The reference-tree block guarded by `if all_taxids and reftree:`
(line 238). -/
def refEffectsOf (st : Store) (fs : FS) (a : Args) : List Effect :=
  match reftreeOf st a with
  | some t =>
    if !(taxStepOf st fs a).2.isEmpty then
      reftreeBlockEffects st a t (taxStepOf st fs a).2
    else []
  | none => []

/-- The effect trace of `main`'s body after successful validation
(lines 127–248), threading the reassignments of `all_taxids` between the
blocks exactly as the source does. -/
def pyBodyEffects (st : Store) (fs : FS) (a : Args) : List Effect :=
  nameBlockEffects st fs a ++ (infoStepOf st fs a).1 ++ (taxStepOf st fs a).1 ++
    refEffectsOf st fs a

/-- The whole `main(argv)` run: a `parser.error` message, or the effect
trace of the body. -/
def runMain (st : Store) (fs : FS) (a : Args) : Except String (List Effect) :=
  match validateArgs a with
  | some e => .error e
  | none => .ok (pyBodyEffects st fs a)

/-- Whether a run completed without a `parser.error`. -/
def runOk (r : Except String (List Effect)) : Bool :=
  match r with
  | .ok _ => true
  | .error _ => false

/-- Whether an effect is a `t.write(..., outfile=...)` tree export. -/
def Effect.isTreeWrite : Effect → Bool
  | .treeWrite _ _ _ _ => true
  | _ => false

/-- Whether an effect is a stderr line. -/
def Effect.isErr : Effect → Bool
  | .err _ => true
  | _ => false

/-- Whether an effect is a line-by-line file write. -/
def Effect.isFileWrite : Effect → Bool
  | .fileWrite _ _ => true
  | _ => false

/-- Whether an effect is a stdout line. -/
def Effect.isOut : Effect → Bool
  | .out _ => true
  | _ => false

/-- Whether an effect touches (writes or exports to) the given path. -/
def Effect.writesPath (p : String) : Effect → Bool
  | .fileWrite q _ => q == p
  | .treeWrite q _ _ _ => q == p
  | _ => false

/-! Concrete collaborators used to instantiate the theorems: a small
taxonomy store recognising taxid 9606 / the name "homo sapiens", and a file
system holding a one-taxid `--taxid_file`. -/

/-- A small concrete taxonomy store for witnesses. -/
def demoStore : Store where
  name2id := fun ns => if "homo sapiens" ∈ ns then [("homo sapiens", 9606)] else []
  fuzzy_search := fun _ _ => (some 9598, "pan troglodytes", 85 / 100)
  translate_merged := fun l => (l, [])
  taxid_translator := fun l =>
    l.filterMap (fun t =>
      match t with
      | .int 9606 => some ((9606 : Int), "Homo sapiens")
      | _ => none)
  sp_lineage := fun _ => [1, 9606]
  translate_to_names := fun l => l.map (fun n => "nm" ++ toString n)
  translate_to_names' := fun l => l.map (fun n => "NM" ++ toString n)
  get_topology := fun _ _ _ => PTree.mk "9606" [("rank", FVal.str "species")] []
  parse_phylo := fun _ => PTree.mk "root" [] [PTree.mk "9606" [] [], PTree.mk "9598" [] []]
  write_str := fun t _ => t.nm ++ ";"

/-- A file system with a `--taxid_file` holding the single line `9606`. -/
def demoFS : FS := fun p =>
  if p = "taxa.txt" then some "9606\n" else if p = "one.txt" then some "9606" else none

/-- A store in which taxid 1 was merged into taxid 2 and nothing is
translatable: `translate_merged` rewrites the set to `{2}` recording the
conversion `1 → 2`, and the taxid translator is empty. -/
def mergeStore : Store :=
  { demoStore with
    translate_merged := fun _ => ([Taxid.int 2], [((1 : Int), (2 : Int))])
    taxid_translator := fun _ => [] }

/-- A two-node topology: a species node (taxid label 9606) with one
subspecies child, as `get_topology` would return it. -/
def c7Topology : PTree :=
  PTree.mk "9606" [("rank", FVal.str "species")]
    [PTree.mk "9607" [("rank", FVal.str "subspecies")] []]

/-- A store returning `c7Topology` and an empty taxid translator. -/
def c7Store : Store :=
  { demoStore with
    get_topology := fun _ _ _ => c7Topology
    taxid_translator := fun _ => [] }

/-! Helper lemmas about the mutual tree recursions. -/

/-- The forest version of `PTree.nodes` is `flatten` of the mapped trees. -/
theorem nodesList_eq_flatten (cs : List PTree) :
    PTree.nodesList cs = (cs.map PTree.nodes).flatten := by
  induction cs with
  | nil => rfl
  | cons t ts ih => simp [PTree.nodesList, ih]

/-- The forest version of `PTree.leaves` is `flatten` of the mapped trees. -/
theorem leavesList_eq_flatten (cs : List PTree) :
    PTree.leavesList cs = (cs.map PTree.leaves).flatten := by
  induction cs with
  | nil => rfl
  | cons t ts ih => simp [PTree.leavesList, ih]

/-- The forest version of `renameLeavesToTaxid` is a `map`. -/
theorem renameLeavesList_eq_map (cs : List PTree) :
    renameLeavesList cs = cs.map renameLeavesToTaxid := by
  induction cs with
  | nil => rfl
  | cons t ts ih => simp [renameLeavesList, ih]

/-- Every tree has at least one leaf. -/
theorem leaves_ne_nil (t : PTree) : PTree.leaves t ≠ [] := by
  induction t using PTree.recNodes with
  | h n f cs ih =>
    cases hcs : cs.isEmpty with
    | true => simp [PTree.leaves, hcs]
    | false =>
      cases cs with
      | nil => simp at hcs
      | cons c cs' =>
        have hc := ih c (by simp)
        rw [PTree.leaves, if_neg (by simp), PTree.leavesList]
        intro h
        exact hc (List.append_eq_nil.mp h).1

/-- After the leaf-renaming loop (lines 232–233), every leaf of the tree is
named by (the string rendering of) its own `taxid` feature. -/
theorem renameLeaves_leaf_names (t : PTree) :
    ∀ l ∈ PTree.leaves (renameLeavesToTaxid t), l.nm = featStr l "taxid" := by
  induction t using PTree.recNodes with
  | h n f cs ih =>
    intro l hl
    cases hcs : cs.isEmpty with
    | true =>
      rw [renameLeavesToTaxid, if_pos hcs] at hl
      rw [PTree.leaves, if_pos hcs, List.mem_singleton] at hl
      subst hl
      simp [featStr, getFeat, PTree.feats, PTree.nm]
    | false =>
      rw [renameLeavesToTaxid, if_neg (by simp [hcs])] at hl
      rw [PTree.leaves] at hl
      rw [renameLeavesList_eq_map] at hl
      have hcs' : (cs.map renameLeavesToTaxid).isEmpty = false := by
        cases cs with
        | nil => simp at hcs
        | cons c cs' => simp
      rw [if_neg (by simp [hcs'])] at hl
      rw [leavesList_eq_flatten] at hl
      simp only [List.map_map, List.mem_flatten, List.mem_map, Function.comp] at hl
      obtain ⟨ls, ⟨c, hc, hls⟩, hlin⟩ := hl
      exact ih c hc l (by rw [← hls] at hlin; exact hlin)

/-! Lemmas locating each kind of effect in the trace: stdout lines come only
from the name block and the reftree block, file writes and stderr lines only
from the `--list` block, tree exports only from the `--taxonomy` block. -/

/-- Filtering a mapped list by a predicate false on the image gives `[]`. -/
theorem filter_map_eq_nil {α : Type} (f : α → Effect) (p : Effect → Bool)
    (hp : ∀ x, p (f x) = false) (ls : List α) : (ls.map f).filter p = [] := by
  induction ls with
  | nil => rfl
  | cons x xs ih => simp [List.filter, hp, ih]

/-- Filtering a mapped list by a predicate true on the image keeps it. -/
theorem filter_map_eq_self {α : Type} (f : α → Effect) (p : Effect → Bool)
    (hp : ∀ x, p (f x) = true) (ls : List α) : (ls.map f).filter p = ls.map f := by
  induction ls with
  | nil => rfl
  | cons x xs ih => simp [List.filter, hp, ih]

/-- The name block only prints to stdout. -/
theorem nameBlock_filter (st : Store) (fs : FS) (a : Args) (p : Effect → Bool)
    (hp : ∀ s, p (Effect.out s) = false) :
    (nameBlockEffects st fs a).filter p = [] := by
  unfold nameBlockEffects
  dsimp only
  split
  · rfl
  · exact filter_map_eq_nil _ _ hp _

/-- The `--list` step emits no tree export. -/
theorem infoStep_filter_treeWrite (st : Store) (fs : FS) (a : Args) :
    (infoStepOf st fs a).1.filter Effect.isTreeWrite = [] := by
  unfold infoStepOf
  dsimp only
  split
  · simp only [infoBlock, List.filter]
    rw [filter_map_eq_nil (fun v => Effect.err (v ++ " NOT FOUND")) _ (fun _ => rfl)]
    rfl
  · rfl

/-- The `--list` step emits no stdout line. -/
theorem infoStep_filter_out (st : Store) (fs : FS) (a : Args) :
    (infoStepOf st fs a).1.filter Effect.isOut = [] := by
  unfold infoStepOf
  dsimp only
  split
  · simp only [infoBlock, List.filter]
    rw [filter_map_eq_nil (fun v => Effect.err (v ++ " NOT FOUND")) _ (fun _ => rfl)]
    rfl
  · rfl

/-- The `--taxonomy` step emits only tree exports: any predicate false on
tree exports filters it to `[]`. -/
theorem taxStep_filter (st : Store) (fs : FS) (a : Args) (p : Effect → Bool)
    (hp : ∀ q f fe t, p (Effect.treeWrite q f fe t) = false) :
    (taxStepOf st fs a).1.filter p = [] := by
  unfold taxStepOf
  dsimp only
  split
  · simp [taxonomyBlock, List.filter, hp]
  · rfl

/-- The reftree block only prints to stdout. -/
theorem refEffects_filter (st : Store) (fs : FS) (a : Args) (p : Effect → Bool)
    (hp : ∀ s, p (Effect.out s) = false) :
    (refEffectsOf st fs a).filter p = [] := by
  unfold refEffectsOf
  cases reftreeOf st a with
  | none => rfl
  | some t =>
    split
    · simp [reftreeBlockEffects, List.filter, hp]
    · rfl

/-- The tree exports of a run are exactly those of the `--taxonomy` step. -/
theorem body_treeWrites (st : Store) (fs : FS) (a : Args) :
    (pyBodyEffects st fs a).filter Effect.isTreeWrite =
      (taxStepOf st fs a).1.filter Effect.isTreeWrite := by
  unfold pyBodyEffects
  rw [List.filter_append, List.filter_append, List.filter_append]
  rw [nameBlock_filter st fs a _ (fun _ => rfl), infoStep_filter_treeWrite,
    refEffects_filter st fs a _ (fun _ => rfl)]
  simp

/-- The stderr lines of a run are exactly those of the `--list` step. -/
theorem body_errs (st : Store) (fs : FS) (a : Args) :
    (pyBodyEffects st fs a).filter Effect.isErr =
      (infoStepOf st fs a).1.filter Effect.isErr := by
  unfold pyBodyEffects
  rw [List.filter_append, List.filter_append, List.filter_append]
  rw [nameBlock_filter st fs a _ (fun _ => rfl),
    taxStep_filter st fs a _ (fun _ _ _ _ => rfl),
    refEffects_filter st fs a _ (fun _ => rfl)]
  simp

/-- The file writes of a run are exactly those of the `--list` step. -/
theorem body_fileWrites (st : Store) (fs : FS) (a : Args) :
    (pyBodyEffects st fs a).filter Effect.isFileWrite =
      (infoStepOf st fs a).1.filter Effect.isFileWrite := by
  unfold pyBodyEffects
  rw [List.filter_append, List.filter_append, List.filter_append]
  rw [nameBlock_filter st fs a _ (fun _ => rfl),
    taxStep_filter st fs a _ (fun _ _ _ _ => rfl),
    refEffects_filter st fs a _ (fun _ => rfl)]
  simp

/-- A successful run's effects are the body's effects. -/
theorem runMain_ok_effects (st : Store) (fs : FS) (a : Args) (effs : List Effect)
    (h : runMain st fs a = .ok effs) : effs = pyBodyEffects st fs a := by
  unfold runMain at h
  cases hv : validateArgs a with
  | some e => rw [hv] at h; cases h
  | none => rw [hv] at h; cases h; rfl

/-! Concrete argument vectors used by witnesses and counterexamples. -/

/-- `-i 9606 -n "homo sapiens" -x tax`: one taxid-group and one name-group
mode. -/
def c1Args : Args :=
  { taxid := some [9606], names := some ["homo sapiens"], taxonomy := some "tax" }

/-- `-i 9606 -if taxa.txt -x tax`: two taxid-group modes combined. -/
def c1BothArgs : Args :=
  { taxid := some [9606], taxid_file := some "taxa.txt", taxonomy := some "tax" }

/-- `-n "homo sapiens,foo bar" -l L`: names-only input. -/
def c2Args : Args := { names := some ["homo sapiens,foo bar"], info_list := some "L" }

/-- `-t ref.nw -a out.nw`. -/
def c3Args : Args := { reftree := some "ref.nw", annotated_tree := some "out.nw" }

/-- `-if taxa.txt -l L`. -/
def c4Args : Args := { taxid_file := some "taxa.txt", info_list := some "L" }

/-- `-i 9606 -x tax`. -/
def c5Args : Args := { taxid := some [9606], taxonomy := some "tax" }

/-- `-i 9606 -l L`. -/
def c6Args : Args := { taxid := some [9606], info_list := some "L" }

/-- `-i 1 -l L`. -/
def c6MergeArgs : Args := { taxid := some [1], info_list := some "L" }

/-- `-if taxa.txt -x tax --collapse_subspecies`. -/
def c7Args : Args :=
  { taxid_file := some "taxa.txt", taxonomy := some "tax", collapse_subspecies := true }

/-- `-n "homo sapiens,foo bar" -l L --fuzzy 0.0`. -/
def c9Args : Args :=
  { names := some ["homo sapiens,foo bar"], info_list := some "L", fuzzy := some 0 }

/-- `-i 9606 -if one.txt -x tax`. -/
def c10Args : Args :=
  { taxid := some [9606], taxid_file := some "one.txt", taxonomy := some "tax" }

/-- C1 (corrected): input-mode exclusivity holds only across the two groups,
not between any two of the five modes.  Combining a truthy taxid-group mode
(`-i`, `-if`, `-t`) with a truthy name-group mode (`-n`, `-nf`) is rejected
with the parser error `taxid and name options are mutually exclusive`, while
an invocation whose truthy modes all come from one group proceeds (given a
truthy output option). -/
theorem claim1_cross_group_modes_exclusive (st : Store) (fs : FS) (a : Args)
    (hout : outputTruthy a = true) :
    (taxidSource a = true → nameSource a = true →
      runMain st fs a = .error "taxid and name options are mutually exclusive") ∧
    (taxidSource a = true → nameSource a = false →
      runMain st fs a = .ok (pyBodyEffects st fs a)) ∧
    (taxidSource a = false → nameSource a = true →
      runMain st fs a = .ok (pyBodyEffects st fs a)) := by
  unfold runMain validateArgs
  refine ⟨fun ht hn => ?_, fun ht hn => ?_, fun ht hn => ?_⟩ <;>
    simp [ht, hn, hout]

/-- C1 witness: `-i 9606 -n "homo sapiens" -x tax` (a taxid-group mode plus a
name-group mode) is rejected with the cross-group parser error. -/
theorem claim1_cross_group_modes_exclusive_witness :
    runMain demoStore demoFS c1Args =
      .error "taxid and name options are mutually exclusive" :=
  (claim1_cross_group_modes_exclusive demoStore demoFS c1Args (by decide)).1
    (by decide) (by decide)

/-- C1 counterexample: `-i 9606 -if taxa.txt -x tax` supplies two of the five
input modes (both from the taxid group), yet validation passes and the run
completes with no parser error — refuting the claim that any two of the five
modes are mutually exclusive. -/
theorem claim1_counterexample :
    validateArgs c1BothArgs = none ∧
    runOk (runMain demoStore demoFS c1BothArgs) = true :=
  ⟨rfl, rfl⟩

/-- C8 (corrected): the validation gates test Python truthiness, not option
presence.  With every input source falsy the run errors with `At least one
input source is required`; with an input source truthy, no cross-group
conflict and every output option falsy it errors with `At least one output
option is required`; with a truthy input source, no conflict and a truthy
output option the run proceeds.  (An option supplied with an empty-string
value is falsy, hence counts as absent — see the counterexample.) -/
theorem claim8_validation_gates (st : Store) (fs : FS) (a : Args) :
    ((taxidSource a || nameSource a) = false →
      runMain st fs a = .error "At least one input source is required") ∧
    ((taxidSource a || nameSource a) = true → (taxidSource a && nameSource a) = false →
      outputTruthy a = false →
      runMain st fs a = .error "At least one output option is required") ∧
    ((taxidSource a || nameSource a) = true → (taxidSource a && nameSource a) = false →
      outputTruthy a = true →
      runMain st fs a = .ok (pyBodyEffects st fs a)) := by
  unfold runMain validateArgs
  refine ⟨fun h => ?_, fun h1 h2 h3 => ?_, fun h1 h2 h3 => ?_⟩
  · rw [Bool.or_eq_false_iff] at h
    simp [h.1, h.2]
  · cases ht : taxidSource a <;> cases hn : nameSource a <;>
      rw [ht, hn] at h1 h2 <;> simp_all
  · cases ht : taxidSource a <;> cases hn : nameSource a <;>
      rw [ht, hn] at h1 h2 <;> simp_all

/-- C8 witness: `-i 9606 -x tax` passes both gates and proceeds. -/
theorem claim8_validation_gates_witness :
    runMain demoStore demoFS c5Args = .ok (pyBodyEffects demoStore demoFS c5Args) :=
  (claim8_validation_gates demoStore demoFS c5Args).2.2 (by decide) (by decide) (by decide)

/-- C8 counterexample: `-i 9606 -x ""` supplies an input source and an output
option, yet exits with a parser error, because the empty-string output value
is falsy — refuting the claim that parsing succeeds whenever at least one
input source and one output option are present. -/
theorem claim8_counterexample :
    runMain demoStore demoFS { taxid := some [9606], taxonomy := some "" } =
      .error "At least one output option is required" :=
  rfl

/-- C2 (confirmed): when the only inputs are names, the taxid list stays
empty, every taxid-driven block is skipped (no file write, no tree export,
no reftree print), and the run's entire output is the name-translation table
on stdout — even though a truthy output option was needed to get past
validation. -/
theorem claim2_names_only_prints_table_only (st : Store) (fs : FS) (a : Args)
    (hti : optListTruthy a.taxid = false) (htf : optStrTruthy a.taxid_file = false)
    (hrt : optStrTruthy a.reftree = false)
    (effs : List Effect) (h : runMain st fs a = .ok effs) :
    collectTaxids st fs a = [] ∧
    effs = (nameTableLines st a.fuzzy (allNamesOf fs a)).map Effect.out ∧
    ∀ e ∈ effs, Effect.isOut e = true := by
  have hcoll : collectTaxids st fs a = [] := by
    unfold collectTaxids fileTaxids cliTaxids reftreeTaxids reftreeOf
    rw [hti, htf, hrt]
    rfl
  have heffs := runMain_ok_effects st fs a effs h
  have hbody : pyBodyEffects st fs a =
      (nameTableLines st a.fuzzy (allNamesOf fs a)).map Effect.out := by
    unfold pyBodyEffects
    have hinfo : infoStepOf st fs a = ([], []) := by
      unfold infoStepOf
      rw [hcoll]
      rfl
    have htax : taxStepOf st fs a = ([], []) := by
      unfold taxStepOf
      rw [hinfo]
      rfl
    have href : refEffectsOf st fs a = [] := by
      unfold refEffectsOf reftreeOf
      rw [hrt]
      rfl
    rw [hinfo, htax, href]
    unfold nameBlockEffects
    dsimp only
    split
    · next hempty =>
      rw [List.isEmpty_iff] at hempty
      rw [hempty]
      simp [nameTableLines]
    · simp
  refine ⟨hcoll, by rw [heffs, hbody], ?_⟩
  intro e he
  rw [heffs, hbody] at he
  obtain ⟨l, _, hl⟩ := List.mem_map.mp he
  rw [← hl]
  rfl

/-- C2 witness: `-n "homo sapiens,foo bar" -l L` prints only the two table
lines; no `.info.txt` is written although `-l` was given. -/
theorem claim2_names_only_prints_table_only_witness :
    collectTaxids demoStore demoFS c2Args = [] ∧
    pyBodyEffects demoStore demoFS c2Args =
      (nameTableLines demoStore c2Args.fuzzy (allNamesOf demoFS c2Args)).map Effect.out ∧
    ∀ e ∈ pyBodyEffects demoStore demoFS c2Args, Effect.isOut e = true :=
  claim2_names_only_prints_table_only demoStore demoFS c2Args rfl rfl rfl _ rfl

/-- C3 (code_bug): with `-t ref.nw -a out.nw` the run writes no file and no
tree export at all — in particular nothing at the path `out.nw` given to
`-a`, although the option's own help text promises the annotated tree is
dumped "into the specified file" — and instead prints the annotated tree's
serialization to stdout. -/
theorem claim3_annotated_tree_printed_not_written :
    runMain demoStore demoFS c3Args = .ok [Effect.out "root;"] ∧
    (∀ e ∈ pyBodyEffects demoStore demoFS c3Args, Effect.writesPath "out.nw" e = false) ∧
    (pyBodyEffects demoStore demoFS c3Args).filter Effect.isFileWrite = [] ∧
    (pyBodyEffects demoStore demoFS c3Args).filter Effect.isTreeWrite = [] :=
  ⟨rfl, by decide, rfl, rfl⟩

/-- C4 (corrected): taxids are not normalized to numbers.  Taxids from `-i`
enter the list as ints, but taxids from `--taxid_file` enter as (stripped)
strings, unconverted; the reference-tree channel likewise forwards raw
attribute values. -/
theorem claim4_file_taxids_stay_strings (fs : FS) (a : Args) :
    (∀ t ∈ cliTaxids a, ∃ n, t = Taxid.int n) ∧
    (∀ t ∈ fileTaxids fs a, ∃ s, t = Taxid.str s) := by
  constructor
  · intro t ht
    unfold cliTaxids at ht
    split at ht
    · obtain ⟨n, _, hn⟩ := List.mem_map.mp ht
      exact ⟨n, hn.symm⟩
    · cases ht
  · intro t ht
    unfold fileTaxids at ht
    split at ht
    · obtain ⟨s, _, hs⟩ := List.mem_map.mp ht
      exact ⟨pyStrip s, hs.symm⟩
    · cases ht

/-- C4 witness: the taxid read from `taxa.txt` is the string `"9606"`. -/
theorem claim4_file_taxids_stay_strings_witness :
    ∃ s, Taxid.str "9606" = Taxid.str s :=
  (claim4_file_taxids_stay_strings demoFS c4Args).2 (Taxid.str "9606") (by decide)

/-- C4 counterexample: with `-if taxa.txt -l L` the collected taxid is the
string `"9606"`, not the number 9606; the set handed to `translate_merged`
(see `infoBlock`) is `[Taxid.str "9606"]`, and a store that translates only
numeric taxids consequently reports `9606 NOT FOUND` — refuting the claim
that file taxids are converted to numbers before being collected and passed
to the store. -/
theorem claim4_counterexample :
    collectTaxids demoStore demoFS c4Args = [Taxid.str "9606", Taxid.str ""] ∧
    (pySet (collectTaxids demoStore demoFS c4Args)).filter (fun t => t ≠ Taxid.str "") =
      [Taxid.str "9606"] ∧
    runMain demoStore demoFS c4Args =
      .ok [Effect.fileWrite "L.info.txt" [], Effect.err "9606 NOT FOUND"] :=
  ⟨rfl, rfl, rfl⟩

/-- A non-empty list has `isEmpty = false`. -/
theorem isEmpty_false_of_ne_nil {α : Type} {l : List α} (h : l ≠ []) :
    l.isEmpty = false := by
  cases hv : l.isEmpty with
  | false => rfl
  | true => exact absurd (List.isEmpty_iff.mp hv) h

/-- C5 (confirmed): when the `--taxonomy` block runs on a non-empty taxid
set with a truthy `-x FILE`, the run's tree exports are exactly five, in
source order: `FILE.names.nw` (format 9), `FILE.allnames.nw` (format 8) and
`FILE.full_annotation.nw` (format 9, carrying the seven features of
`fullAnnotationFeatures`) of the annotated (and possibly collapsed) tree,
then `FILE.taxids.nw` (format 9) and `FILE.alltaxids.nw` (format 8) of the
leaf-renamed tree, in which every leaf is named by its raw `taxid`
feature. -/
theorem claim5_taxonomy_writes_five_files (st : Store) (fs : FS) (a : Args) (x : String)
    (hx : a.taxonomy = some x) (hxne : x ≠ "")
    (hne : (infoStepOf st fs a).2 ≠ [])
    (effs : List Effect) (h : runMain st fs a = .ok effs) :
    ∃ t : PTree,
      effs.filter Effect.isTreeWrite =
        [Effect.treeWrite (x ++ ".names.nw") 9 [] t,
         Effect.treeWrite (x ++ ".allnames.nw") 8 [] t,
         Effect.treeWrite (x ++ ".full_annotation.nw") 9 fullAnnotationFeatures t,
         Effect.treeWrite (x ++ ".taxids.nw") 9 [] (renameLeavesToTaxid t),
         Effect.treeWrite (x ++ ".alltaxids.nw") 8 [] (renameLeavesToTaxid t)] ∧
      (∀ l ∈ PTree.leaves (renameLeavesToTaxid t), l.nm = featStr l "taxid") := by
  have heffs := runMain_ok_effects st fs a effs h
  rw [heffs, body_treeWrites]
  have hguard : (!(infoStepOf st fs a).2.isEmpty && optStrTruthy a.taxonomy) = true := by
    rw [isEmpty_false_of_ne_nil hne, hx]
    simp [optStrTruthy, hxne]
  have htax : taxStepOf st fs a = taxonomyBlock st a (infoStepOf st fs a).2 := by
    unfold taxStepOf
    dsimp only
    rw [if_pos hguard]
  rw [htax]
  refine ⟨taxTree st a (infoStepOf st fs a).2, ?_, renameLeaves_leaf_names _⟩
  unfold taxonomyBlock
  rw [hx]
  simp [List.filter, Effect.isTreeWrite, Option.getD_some]

/-- C5 witness: `-i 9606 -x tax` produces exactly the five exports. -/
theorem claim5_taxonomy_writes_five_files_witness :
    ∃ t : PTree,
      (pyBodyEffects demoStore demoFS c5Args).filter Effect.isTreeWrite =
        [Effect.treeWrite ("tax" ++ ".names.nw") 9 [] t,
         Effect.treeWrite ("tax" ++ ".allnames.nw") 8 [] t,
         Effect.treeWrite ("tax" ++ ".full_annotation.nw") 9 fullAnnotationFeatures t,
         Effect.treeWrite ("tax" ++ ".taxids.nw") 9 [] (renameLeavesToTaxid t),
         Effect.treeWrite ("tax" ++ ".alltaxids.nw") 8 [] (renameLeavesToTaxid t)] ∧
      (∀ l ∈ PTree.leaves (renameLeavesToTaxid t), l.nm = featStr l "taxid") :=
  claim5_taxonomy_writes_five_files demoStore demoFS c5Args "tax" rfl (by decide)
    (by decide) _ rfl

/-- C6 (corrected): the `.info.txt` lines and the `NOT FOUND` stderr lines
are both computed from the merge-converted taxid set, not from the raw
inputs: one line per entry of the taxid translator queried on the converted
set (fields: the conversion image of the translated taxid or the taxid
itself, the scientific name, the comma-joined named lineage and the
comma-joined numeric lineage), and one `NOT FOUND` stderr line per converted
taxid missing from the translator — and only those. -/
theorem claim6_info_list_outputs (st : Store) (fs : FS) (a : Args) (l : String)
    (hl : a.info_list = some l) (hlne : l ≠ "")
    (hne : collectTaxids st fs a ≠ [])
    (effs : List Effect) (h : runMain st fs a = .ok effs) :
    effs.filter Effect.isFileWrite =
      [Effect.fileWrite (l ++ ".info.txt")
        ((infoTranslator st (collectTaxids st fs a)).map (fun p =>
          String.intercalate "\t"
            [toString ((((st.translate_merged
                    (cleanTaxids (collectTaxids st fs a))).2.find?
                  (fun q => q.1 = p.1)).map (fun q => q.2)).getD p.1),
             p.2,
             String.intercalate "," (st.translate_to_names (st.sp_lineage (Taxid.int p.1))),
             String.intercalate "," ((st.sp_lineage (Taxid.int p.1)).map toString)]))] ∧
    effs.filter Effect.isErr =
      (infoNotFound st (collectTaxids st fs a)).map
        (fun v => Effect.err (v ++ " NOT FOUND")) := by
  have heffs := runMain_ok_effects st fs a effs h
  have hguard : (!(collectTaxids st fs a).isEmpty && optStrTruthy a.info_list) = true := by
    rw [isEmpty_false_of_ne_nil hne, hl]
    simp [optStrTruthy, hlne]
  have hinfo : infoStepOf st fs a = infoBlock st l (collectTaxids st fs a) := by
    unfold infoStepOf
    dsimp only
    rw [if_pos hguard, hl]
    rfl
  constructor
  · rw [heffs, body_fileWrites, hinfo]
    unfold infoBlock
    rw [List.filter_cons]
    rw [filter_map_eq_nil (fun v => Effect.err (v ++ " NOT FOUND")) _ (fun _ => rfl)]
    simp [infoLine, Effect.isFileWrite]
  · rw [heffs, body_errs, hinfo]
    unfold infoBlock
    rw [List.filter_cons]
    rw [filter_map_eq_self (fun v => Effect.err (v ++ " NOT FOUND")) _ (fun _ => rfl)]
    simp [Effect.isErr]

/-- C6 witness: `-i 9606 -l L` writes `L.info.txt` with the single
four-field line for taxid 9606 and prints nothing to stderr. -/
theorem claim6_info_list_outputs_witness :
    (pyBodyEffects demoStore demoFS c6Args).filter Effect.isFileWrite =
      [Effect.fileWrite "L.info.txt" ["9606\tHomo sapiens\tnm1,nm9606\t1,9606"]] ∧
    (pyBodyEffects demoStore demoFS c6Args).filter Effect.isErr = [] :=
  claim6_info_list_outputs demoStore demoFS c6Args "L" rfl (by decide) (by decide) _ rfl

/-- C6 counterexample: input taxid 1 is merged into 2 by the store and
nothing is translatable, so the claim requires a `1 NOT FOUND` line for the
untranslatable input taxid 1; the run instead prints `2 NOT FOUND` (the
merge-converted taxid) and no line mentioning 1 — refuting the claim that
`NOT FOUND` lines name exactly the input taxids the store cannot
translate. -/
theorem claim6_counterexample :
    runMain mergeStore demoFS c6MergeArgs =
      .ok [Effect.fileWrite "L.info.txt" [], Effect.err "2 NOT FOUND"] ∧
    mergeStore.taxid_translator [Taxid.int 1] = [] :=
  ⟨rfl, rfl⟩

/-- C7 (corrected): subspecies collapsing is implemented inline in this file
by direct tree mutation (no taxonomy-store call: `collapseTree` takes no
`Store`), and it rewrites a species node only when `int(n.taxid)` is a
member of the taxid set under Python equality — so only taxids supplied as
ints (via `-i`) can match.  For a qualifying species node with at least one
descendant, the children become every former descendant leafified (name
suffixed with its rank in braces, children dropped) followed by one
connector copying the species node's features with name suffixed
`{species}`, and the node gains `collapse_subspecies="1"`. -/
theorem claim7_collapse_rewrite (sset : List Taxid) (nm : String)
    (fts : List (String × FVal)) (cs : List PTree)
    (hrank : featStr (PTree.mk nm fts cs) "rank" = "species")
    (hmem : sset.contains
      (Taxid.int (((getFeat (PTree.mk nm fts cs) "taxid").getD (FVal.str "")).toPyInt)) = true)
    (hcs : cs ≠ []) :
    collapseTree sset (PTree.mk nm fts cs) =
      PTree.mk nm (setFeat fts "collapse_subspecies" (FVal.str "1"))
        (((PTree.mk nm fts cs).descendants).map leafify ++
          [connectorOf (PTree.mk nm fts cs)]) ∧
    connectorOf (PTree.mk nm fts cs) = PTree.mk (nm ++ "\x7bspecies\x7d") fts [] ∧
    (∀ d : PTree,
      leafify d = PTree.mk (d.nm ++ "\x7b" ++ featStr d "rank" ++ "\x7d") d.feats []) := by
  refine ⟨?_, rfl, fun d => rfl⟩
  have hcond : (featStr (PTree.mk nm fts cs) "rank" == "species" &&
      sset.contains
        (Taxid.int (((getFeat (PTree.mk nm fts cs) "taxid").getD (FVal.str "")).toPyInt)) &&
      !cs.isEmpty) = true := by
    rw [hrank, hmem, isEmpty_false_of_ne_nil hcs]
    rfl
  rw [collapseTree]
  rw [if_pos hcond]

/-- C7 witness: a species node whose int taxid 9606 is in the set, with one
subspecies child, is rewritten as the claim describes. -/
theorem claim7_collapse_rewrite_witness :
    collapseTree [Taxid.int 9606]
        (PTree.mk "sp" [("rank", FVal.str "species"), ("taxid", FVal.str "9606")]
          [PTree.mk "sub" [("rank", FVal.str "subspecies")] []]) =
      PTree.mk "sp"
        [("rank", FVal.str "species"), ("taxid", FVal.str "9606"),
         ("collapse_subspecies", FVal.str "1")]
        [PTree.mk "sub\x7bsubspecies\x7d" [("rank", FVal.str "subspecies")] [],
         PTree.mk "sp\x7bspecies\x7d"
           [("rank", FVal.str "species"), ("taxid", FVal.str "9606")] []] :=
  (claim7_collapse_rewrite [Taxid.int 9606] "sp"
    [("rank", FVal.str "species"), ("taxid", FVal.str "9606")]
    [PTree.mk "sub" [("rank", FVal.str "subspecies")] []]
    rfl rfl (List.cons_ne_nil _ _)).1

/-- C7 counterexample: in the run `-if taxa.txt -x tax --collapse_subspecies`
the taxid set is `[Taxid.str "9606"]` (strings, because they came from a
file), and the species node of the retrieved topology — rank `species`,
taxid feature `9606`, one descendant — is left completely unchanged by the
collapse step (`int("9606") = 9606` is not Python-equal to the string
`"9606"`), and the run exports the uncollapsed tree; moreover the collapse
is computed by this file's own `collapseTree`, not delegated to the
store. -/
theorem claim7_counterexample :
    (pySet (collectTaxids c7Store demoFS c7Args)).filter (fun t => t ≠ Taxid.str "") =
      [Taxid.str "9606"] ∧
    collapseTree [Taxid.str "9606"] (annotateTree c7Store [] c7Topology) =
      annotateTree c7Store [] c7Topology ∧
    featStr (annotateTree c7Store [] c7Topology) "rank" = "species" ∧
    featStr (annotateTree c7Store [] c7Topology) "taxid" = "9606" ∧
    (annotateTree c7Store [] c7Topology).descendants.length = 1 ∧
    (taxStepOf c7Store demoFS c7Args).1.head? =
      some (Effect.treeWrite "tax.names.nw" 9 [] (annotateTree c7Store [] c7Topology)) :=
  ⟨rfl, rfl, rfl, rfl, rfl, rfl⟩

/-- The name table does not depend on which falsy `--fuzzy` value was
given. -/
theorem nameTableLines_fuzzy_congr (st : Store) (f1 f2 : Option Rat)
    (h1 : optRatTruthy f1 = false) (h2 : optRatTruthy f2 = false) (ns : List String) :
    nameTableLines st f1 ns = nameTableLines st f2 ns := by
  unfold nameTableLines
  dsimp only
  rw [h1, h2]
  simp

/-- With a falsy `--fuzzy`, a name that exact translation missed is printed
with score `Exact:1.0` and taxid `???`. -/
theorem nameTableLines_no_fuzzy_notfound (st : Store) (fz : Option Rat)
    (hf : optRatTruthy fz = false) (ns : List String) (n : String) (hn : n ∈ ns)
    (hfind : ((st.name2id ns).find? (fun p => p.1 = n)).isNone = true) :
    String.intercalate "\t" ["Exact:1.0", n, pyCapitalize n, "???"] ∈
      nameTableLines st fz ns := by
  unfold nameTableLines
  dsimp only
  rw [hf]
  refine List.mem_map.mpr ⟨n, hn, ?_⟩
  rw [Option.isNone_iff_eq_none] at hfind
  rw [hfind]
  rfl

/-- C9 (confirmed): `--fuzzy 0.0` is falsy, so the whole run behaves exactly
as if `--fuzzy` had not been supplied, and every name missed by exact
translation is printed with taxid `???` and score `Exact:1.0`. -/
theorem claim9_fuzzy_zero_is_noop (st : Store) (fs : FS) (a : Args)
    (h0 : a.fuzzy = some 0) :
    runMain st fs a = runMain st fs { a with fuzzy := none } ∧
    ∀ n ∈ allNamesOf fs a,
      ((st.name2id (allNamesOf fs a)).find? (fun p => p.1 = n)).isNone = true →
      String.intercalate "\t" ["Exact:1.0", n, pyCapitalize n, "???"] ∈
        nameTableLines st a.fuzzy (allNamesOf fs a) := by
  constructor
  · have ha : pyBodyEffects st fs a =
        (if (allNamesOf fs a).isEmpty then []
         else (nameTableLines st a.fuzzy (allNamesOf fs a)).map Effect.out) ++
          (infoStepOf st fs a).1 ++ (taxStepOf st fs a).1 ++ refEffectsOf st fs a := rfl
    have hb : pyBodyEffects st fs { a with fuzzy := none } =
        (if (allNamesOf fs a).isEmpty then []
         else (nameTableLines st none (allNamesOf fs a)).map Effect.out) ++
          (infoStepOf st fs a).1 ++ (taxStepOf st fs a).1 ++ refEffectsOf st fs a := rfl
    have hval : validateArgs { a with fuzzy := none } = validateArgs a := rfl
    unfold runMain
    rw [hval]
    cases validateArgs a with
    | some e => rfl
    | none =>
      rw [ha, hb,
        nameTableLines_fuzzy_congr st a.fuzzy none (by rw [h0]; decide) rfl
          (allNamesOf fs a)]
  · intro n hn hfind
    exact nameTableLines_no_fuzzy_notfound st a.fuzzy (by rw [h0]; decide)
      (allNamesOf fs a) n hn hfind

/-- C9 witness: `-n "homo sapiens,foo bar" -l L --fuzzy 0.0` produces the
same run as without `--fuzzy`. -/
theorem claim9_fuzzy_zero_is_noop_witness :
    runMain demoStore demoFS c9Args =
      runMain demoStore demoFS { c9Args with fuzzy := none } :=
  (claim9_fuzzy_zero_is_noop demoStore demoFS c9Args rfl).1

/-- C10 (confirmed): the taxid set algebra never unifies representations:
the same taxon supplied as the int `n` via `-i` and as the string
`str(n)` via `--taxid_file` yields two distinct elements that both survive
`set()` conversion, so the taxon is processed twice downstream. -/
theorem claim10_int_str_taxids_distinct (st : Store) (fs : FS) (a : Args)
    (n : Int) (f : String)
    (hi : a.taxid = some [n]) (hf : a.taxid_file = some f) (hfne : f ≠ "")
    (hc : fs f = some (toString n))
    (hsplit : pySplit (Char.ofNat 10) (toString n) = [toString n])
    (hstrip : pyStrip (toString n) = toString n) :
    Taxid.int n ≠ Taxid.str (toString n) ∧
    Taxid.int n ∈ pySet (collectTaxids st fs a) ∧
    Taxid.str (toString n) ∈ pySet (collectTaxids st fs a) := by
  have hft : optStrTruthy (some f) = true := by simp [optStrTruthy, hfne]
  have hfile : fileTaxids fs a = [Taxid.str (toString n)] := by
    unfold fileTaxids
    rw [hf, hft, if_pos rfl]
    unfold readFileD
    rw [Option.getD_some, hc, Option.getD_some, hsplit]
    simp [hstrip]
  have hcli : cliTaxids a = [Taxid.int n] := by
    unfold cliTaxids
    rw [hi]
    rfl
  refine ⟨by simp, ?_, ?_⟩
  · rw [pySet, List.mem_dedup]
    unfold collectTaxids
    rw [hfile, hcli]
    simp
  · rw [pySet, List.mem_dedup]
    unfold collectTaxids
    rw [hfile, hcli]
    simp

/-- C10 witness: taxid 9606 given both as `-i 9606` and inside `one.txt`
yields both `Taxid.int 9606` and `Taxid.str "9606"` in the deduplicated
set. -/
theorem claim10_int_str_taxids_distinct_witness :
    Taxid.int 9606 ≠ Taxid.str (toString (9606 : Int)) ∧
    Taxid.int 9606 ∈ pySet (collectTaxids demoStore demoFS c10Args) ∧
    Taxid.str (toString (9606 : Int)) ∈ pySet (collectTaxids demoStore demoFS c10Args) :=
  claim10_int_str_taxids_distinct demoStore demoFS c10Args 9606 "one.txt"
    rfl rfl (by decide) rfl rfl rfl

end EteNcbiquery
